import Mathlib

/-!
Verification development for the Quick-Brush-Size input-classifier plugin.

The model below is a shallow embedding of
`quick_brush_size/quick_brush_size.py` (the `AcceleratingKeyHandler` state
machine), `quick_brush_size/settings_manager.py` (the `SettingsManager`
store) and the threshold-checkbox logic of `quick_brush_size/docker.py`.

Modelling conventions:
* Wall-clock timestamps and all timing parameters are rationals (`ℚ`);
  every function of the source that reads `time.time()` takes the current
  time `now : ℚ` as an explicit argument.
* The two `QTimer`s of a handler are modelled by the Booleans
  `timer_active` (repeating poll timer) and `burst_timer_active`
  (single-shot burst timer); `QTimer.start`/`QTimer.stop` set/clear them.
* Calls out to the host (`Krita`) are modelled by explicit arguments:
  `_get_current_brush_size()` results become `Option ℚ` arguments, and
  `action.trigger()` is observed only through the `trigger_count` field
  (as in the source, which increments `self.trigger_count` on every
  `_trigger_action`).  The handler's `action_name` string plays no role in
  any verified behaviour and is omitted from the state.
* The `reason : str` argument of `force_stop` is ignored by the source
  body and therefore dropped.
-/

namespace QBS

/-- Input modes of the handler (`InputMode` in the source). -/
inductive InputMode where
  | HOLD
  | SLOW_TAP
deriving DecidableEq

/-- State (and live configuration snapshot) of one `AcceleratingKeyHandler`. -/
structure Handler where
  -- configurable settings (pushed by the settings manager)
  HOLD_DETECT_TIME : ℚ
  SLOW_TAP_THRESHOLD : ℚ
  MULTIPLIER_THRESHOLD : ℚ
  HOLD_ENABLED : Bool
  SLOW_TAP_ENABLED : Bool
  MULTIPLIER_ENABLED : Bool
  HOLD_BASE_INTERVAL : ℚ
  HOLD_MIN_INTERVAL : ℚ
  HOLD_EXP_K : ℚ
  HOLD_TAU : ℚ
  SLOW_BURST_COUNT : ℤ
  SLOW_BURST_INTERVAL : ℚ
  MULTIPLIER_BURST_COUNT : ℤ
  MULTIPLIER_BURST_INTERVAL : ℚ
  -- state tracking
  is_pressed : Bool
  press_start_time : ℚ
  last_trigger_time : ℚ
  last_release_time : ℚ
  trigger_count : ℕ
  current_mode : InputMode
  burst_remaining : ℤ
  burst_active : Bool
  burst_timer_active : Bool
  current_burst_interval : ℚ
  timer_active : Bool
  -- safety tracking
  last_brush_size : Option ℚ
  unchanged_trigger_count : ℕ
  last_timer_activity : ℚ
deriving DecidableEq

/-- Safety limit `MAX_PRESS_DURATION = 10.0` seconds. -/
def MAX_PRESS_DURATION : ℚ := 10

/-- Safety limit `STALE_STATE_TIMEOUT = 0.5` seconds. -/
def STALE_STATE_TIMEOUT : ℚ := 1/2

/-- Safety limit `MAX_UNCHANGED_TRIGGERS = 15`. -/
def MAX_UNCHANGED_TRIGGERS : ℕ := 15

/-- Freshly constructed handler (`AcceleratingKeyHandler.__init__`). -/
def initHandler : Handler where
  HOLD_DETECT_TIME := 7/200
  SLOW_TAP_THRESHOLD := 3/10
  MULTIPLIER_THRESHOLD := 3/20
  HOLD_ENABLED := true
  SLOW_TAP_ENABLED := true
  MULTIPLIER_ENABLED := true
  HOLD_BASE_INTERVAL := 1/10
  HOLD_MIN_INTERVAL := 1/125
  HOLD_EXP_K := 8
  HOLD_TAU := 3/20
  SLOW_BURST_COUNT := 3
  SLOW_BURST_INTERVAL := 3/200
  MULTIPLIER_BURST_COUNT := 2
  MULTIPLIER_BURST_INTERVAL := 1/100
  is_pressed := false
  press_start_time := 0
  last_trigger_time := 0
  last_release_time := 0
  trigger_count := 0
  current_mode := InputMode.SLOW_TAP
  burst_remaining := 0
  burst_active := false
  burst_timer_active := false
  current_burst_interval := 3/200
  timer_active := false
  last_brush_size := none
  unchanged_trigger_count := 0
  last_timer_activity := 0

/-- Body of `_trigger_action`: the host-side `action.trigger()` call is
observed only through the incremented `trigger_count`. -/
def trigger_action (s : Handler) : Handler :=
  { s with trigger_count := s.trigger_count + 1 }

/-- Body of `_cleanup_state`: stop both timers, clear burst state, reset the
unchanged-trigger counter. -/
def cleanup_state (s : Handler) : Handler :=
  { s with timer_active := false, burst_timer_active := false,
           burst_remaining := 0, burst_active := false,
           unchanged_trigger_count := 0 }

/-- Body of `end_press`: no-op when not pressed, otherwise clean up, stamp
`last_release_time = now` and mark not pressed. -/
def end_press (s : Handler) (now : ℚ) : Handler :=
  if s.is_pressed then
    { cleanup_state s with last_release_time := now, is_pressed := false }
  else s

/-- Body of `force_stop`: clean up and mark not pressed, without touching
`last_release_time`.  The `reason` string of the source is unused there
and dropped here. -/
def force_stop (s : Handler) : Handler :=
  { cleanup_state s with is_pressed := false }

/-- Body of `_finish_burst`: clear the burst state; if still pressed with
hold enabled, restart the timing baseline at `now` and arm the poll
timer. -/
def finish_burst (s : Handler) (now : ℚ) : Handler :=
  let s1 := { s with burst_active := false, burst_remaining := 0 }
  if s1.is_pressed ∧ s1.HOLD_ENABLED then
    { s1 with press_start_time := now, last_trigger_time := now,
              timer_active := true }
  else s1

/-- Body of `_start_burst`: initialise the burst, fire the first trigger
synchronously, and either arm the single-shot burst timer or finish. -/
def start_burst (s : Handler) (burst_count : ℤ) (burst_interval : ℚ)
    (now : ℚ) : Handler :=
  let s1 := { s with burst_remaining := burst_count, burst_active := true,
                     current_burst_interval := burst_interval }
  let s2 := trigger_action s1
  let s3 := { s2 with burst_remaining := s2.burst_remaining - 1 }
  if s3.burst_remaining > 0 then { s3 with burst_timer_active := true }
  else finish_burst s3 now

/-- Body of `_handle_slow_tap`: select burst parameters by the multiplier
flag and start the burst. -/
def handle_slow_tap (s : Handler) (use_multiplier : Bool) (now : ℚ) :
    Handler :=
  let s1 := { s with current_mode := InputMode.SLOW_TAP }
  if use_multiplier then
    start_burst s1 (s1.SLOW_BURST_COUNT * s1.MULTIPLIER_BURST_COUNT)
      s1.MULTIPLIER_BURST_INTERVAL now
  else
    start_burst s1 s1.SLOW_BURST_COUNT s1.SLOW_BURST_INTERVAL now

/-- Body of `start_press` after its two early guards (the already-pressed
check and the paired-handler preemption, both modelled in
`Pair.step`): mark pressed, reset counters, classify the tap and start
the burst, then possibly arm the poll timer.  `size` is the host's
`_get_current_brush_size()` result. -/
def start_press_body (s : Handler) (now : ℚ) (size : Option ℚ) : Handler :=
  let s1 := { s with is_pressed := true, press_start_time := now,
                     last_trigger_time := now, trigger_count := 0,
                     last_brush_size := size, unchanged_trigger_count := 0,
                     last_timer_activity := now }
  let time_since_release := now - s1.last_release_time
  let s2 :=
    if s1.SLOW_TAP_ENABLED ∧
        (s1.last_release_time = 0 ∨
          time_since_release < s1.SLOW_TAP_THRESHOLD) then
      let use_multiplier : Bool :=
        s1.MULTIPLIER_ENABLED && decide (s1.last_release_time > 0) &&
          decide (time_since_release < s1.MULTIPLIER_THRESHOLD)
      handle_slow_tap s1 use_multiplier now
    else
      handle_slow_tap s1 false now
  if s2.HOLD_ENABLED ∧ ¬ s2.burst_active then { s2 with timer_active := true }
  else s2

/-- Body of `_on_burst_timer`.  The single-shot burst timer has just fired,
so it is first marked inactive; a step with the key still pressed and
presses remaining fires one trigger and reschedules or finishes; any
other wake-up just finishes the burst. -/
def on_burst_timer (s : Handler) (now : ℚ) : Handler :=
  let s1 := { s with burst_timer_active := false }
  if s1.burst_remaining > 0 ∧ s1.is_pressed then
    let s2 := trigger_action s1
    let s3 := { s2 with burst_remaining := s2.burst_remaining - 1 }
    if s3.burst_remaining > 0 then { s3 with burst_timer_active := true }
    else finish_burst s3 now
  else finish_burst s1 now

/-- Iterate `k` burst-timer callbacks (used to run a burst to completion). -/
def runBurst (s : Handler) (now : ℚ) : ℕ → Handler
  | 0 => s
  | k + 1 => runBurst (on_burst_timer s now) now k

/-- Body of `_trigger_action_with_safety_check`.  `sizeBefore` and
`sizeAfter` are the host's brush-size reads surrounding the trigger. -/
def trigger_action_with_safety_check (s : Handler)
    (sizeBefore sizeAfter : Option ℚ) : Handler :=
  let s1 := trigger_action s
  match sizeBefore, sizeAfter with
  | some b, some a =>
    if |b - a| < 1/1000 then
      let s2 :=
        { s1 with unchanged_trigger_count := s1.unchanged_trigger_count + 1 }
      if s2.unchanged_trigger_count ≥ MAX_UNCHANGED_TRIGGERS then
        force_stop s2
      else s2
    else
      { s1 with unchanged_trigger_count := 0, last_brush_size := some a }
  | _, _ => s1

/-- Body of `_get_current_interval`: exponential acceleration in `HOLD`
mode, the gentle hyperbolic fallback in `SLOW_TAP` mode. -/
noncomputable def get_current_interval (s : Handler) (elapsed_time : ℝ) :
    ℝ :=
  if s.current_mode = InputMode.HOLD then
    let t : ℝ := max 0 (elapsed_time - (s.HOLD_DETECT_TIME : ℝ))
    let decay := Real.exp (-(s.HOLD_EXP_K : ℝ) * t / (s.HOLD_TAU : ℝ))
    max (s.HOLD_MIN_INTERVAL : ℝ) ((s.HOLD_BASE_INTERVAL : ℝ) * decay)
  else
    max (3/100 : ℝ) ((15/100) / (1 + (3/2) * elapsed_time))

open Classical in
/-- Body of `_on_timer` (one poll-timer tick at time `now`).  `sizeBefore`
and `sizeAfter` feed the safety check when a trigger fires. -/
noncomputable def on_timer (s : Handler) (now : ℚ)
    (sizeBefore sizeAfter : Option ℚ) : Handler :=
  if ¬ s.is_pressed then { s with timer_active := false }
  else
    let elapsed_since_start := now - s.press_start_time
    let elapsed_since_trigger := now - s.last_trigger_time
    if elapsed_since_start > MAX_PRESS_DURATION then force_stop s
    else
      let s1 := { s with last_timer_activity := now }
      let s2 :=
        if s1.HOLD_ENABLED ∧ elapsed_since_start ≥ s1.HOLD_DETECT_TIME ∧
            s1.current_mode ≠ InputMode.HOLD ∧ ¬ s1.burst_active then
          { s1 with current_mode := InputMode.HOLD }
        else s1
      if s2.current_mode ≠ InputMode.HOLD then s2
      else
        let interval := get_current_interval s2 (elapsed_since_start : ℝ)
        if (elapsed_since_trigger : ℝ) ≥ interval then
          { trigger_action_with_safety_check s2 sizeBefore sizeAfter with
              last_trigger_time := now }
        else s2

/-- Body of `is_stale_state`: pressed but without poll-timer activity for
longer than `STALE_STATE_TIMEOUT`. -/
def is_stale_state (s : Handler) (now : ℚ) : Bool :=
  if ¬ s.is_pressed then false
  else decide (now - s.last_timer_activity > STALE_STATE_TIMEOUT)

/-- Body of `check_and_fix_stale_state`: force-stop and report `true` when
stale, otherwise leave the handler alone and report `false`. -/
def check_and_fix_stale_state (s : Handler) (now : ℚ) : Handler × Bool :=
  if is_stale_state s now then (force_stop s, true) else (s, false)

/-- A pair of handlers wired as each other's `paired_handler` (the two
directions created in `createActions`). -/
structure Pair where
  a : Handler
  b : Handler
deriving DecidableEq

/-- Full body of `start_press` for handler `self` whose `paired_handler` is
`other`: the already-pressed guard, the mutual-exclusion preemption of
the pair, then `start_press_body`.  Returns (new self, new other). -/
def start_press_pair (self other : Handler) (now : ℚ) (size : Option ℚ) :
    Handler × Handler :=
  if self.is_pressed then (self, other)
  else
    let other1 := if other.is_pressed then force_stop other else other
    (start_press_body self now size, other1)

/-- External events on a pair of handlers: `start_press`, `end_press` and
`force_stop` on either side. -/
inductive PairEvent where
  | startA (now : ℚ) (size : Option ℚ)
  | startB (now : ℚ) (size : Option ℚ)
  | endA (now : ℚ)
  | endB (now : ℚ)
  | forceA
  | forceB
deriving DecidableEq

/-- One event applied to the pair. -/
def Pair.step (p : Pair) : PairEvent → Pair
  | .startA now size =>
    let r := start_press_pair p.a p.b now size
    { a := r.1, b := r.2 }
  | .startB now size =>
    let r := start_press_pair p.b p.a now size
    { a := r.2, b := r.1 }
  | .endA now => { p with a := end_press p.a now }
  | .endB now => { p with b := end_press p.b now }
  | .forceA => { p with a := force_stop p.a }
  | .forceB => { p with b := force_stop p.b }

/-- A whole sequence of events applied to the pair. -/
def Pair.run (p : Pair) (es : List PairEvent) : Pair :=
  es.foldl Pair.step p

/-- Value of one settings dictionary (`SettingsManager._current`,
`_saved`, `_before_reset`).  The keys of the Python dict become fields;
float-valued keys are rationals, the two count keys integers. -/
structure Settings where
  hold_detect_time : ℚ
  slow_tap_threshold : ℚ
  multiplier_threshold : ℚ
  hold_enabled : Bool
  slow_tap_enabled : Bool
  multiplier_enabled : Bool
  hold_base_interval : ℚ
  hold_min_interval : ℚ
  hold_exp_k : ℚ
  hold_tau : ℚ
  slow_burst_count : ℤ
  slow_burst_interval : ℚ
  multiplier_burst_count : ℤ
  multiplier_burst_interval : ℚ
deriving DecidableEq

/-- Hardcoded `SettingsManager.DEFAULTS`. -/
def DEFAULTS : Settings where
  hold_detect_time := 1/5
  slow_tap_threshold := 1/10
  multiplier_threshold := 3/20
  hold_enabled := true
  slow_tap_enabled := true
  multiplier_enabled := true
  hold_base_interval := 1/10
  hold_min_interval := 1/125
  hold_exp_k := 8
  hold_tau := 3/20
  slow_burst_count := 3
  slow_burst_interval := 3/200
  multiplier_burst_count := 3
  multiplier_burst_interval := 1/1000

/-- The three threshold keys of `THRESHOLD_TOGGLE_MAP`. -/
inductive ThresholdKey where
  | hold_detect_time
  | slow_tap_threshold
  | multiplier_threshold
deriving DecidableEq

/-- Read the enabled flag a threshold key maps to
(`THRESHOLD_TOGGLE_MAP` plus the dictionary read). -/
def enabledFlag (c : Settings) : ThresholdKey → Bool
  | .hold_detect_time => c.hold_enabled
  | .slow_tap_threshold => c.slow_tap_enabled
  | .multiplier_threshold => c.multiplier_enabled

/-- Write the enabled flag a threshold key maps to. -/
def setEnabledFlag (c : Settings) : ThresholdKey → Bool → Settings
  | .hold_detect_time, v => { c with hold_enabled := v }
  | .slow_tap_threshold, v => { c with slow_tap_enabled := v }
  | .multiplier_threshold, v => { c with multiplier_enabled := v }

/-- State of the `SettingsManager` singleton: current values, last-saved
snapshot, optional pre-reset snapshot, and the registered handlers. -/
structure SMState where
  current : Settings
  saved : Settings
  before_reset : Option Settings
  handlers : List Handler
deriving DecidableEq

/-- Body of `_apply_to_handler`: copy every configuration value of `c`
onto the handler's attributes. -/
def apply_to_handler (c : Settings) (h : Handler) : Handler :=
  { h with
    HOLD_DETECT_TIME := c.hold_detect_time
    SLOW_TAP_THRESHOLD := c.slow_tap_threshold
    MULTIPLIER_THRESHOLD := c.multiplier_threshold
    HOLD_ENABLED := c.hold_enabled
    SLOW_TAP_ENABLED := c.slow_tap_enabled
    MULTIPLIER_ENABLED := c.multiplier_enabled
    HOLD_BASE_INTERVAL := c.hold_base_interval
    HOLD_MIN_INTERVAL := c.hold_min_interval
    HOLD_EXP_K := c.hold_exp_k
    HOLD_TAU := c.hold_tau
    SLOW_BURST_COUNT := c.slow_burst_count
    SLOW_BURST_INTERVAL := c.slow_burst_interval
    MULTIPLIER_BURST_COUNT := c.multiplier_burst_count
    MULTIPLIER_BURST_INTERVAL := c.multiplier_burst_interval }

/-- Body of `_update_handlers`: push the current settings to every
registered handler. -/
def update_handlers (m : SMState) : SMState :=
  { m with handlers := m.handlers.map (apply_to_handler m.current) }

/-- Initial manager state (`__init__` with no persisted values found:
`_load_from_krita` leaves the defaults in place). -/
def initSM : SMState where
  current := DEFAULTS
  saved := DEFAULTS
  before_reset := none
  handlers := []

/-- Body of `set_threshold_enabled`: write the mapped enabled flag and push
to handlers.  Note the source performs no enabled-count check here. -/
def set_threshold_enabled (m : SMState) (k : ThresholdKey) (enabled : Bool) :
    SMState :=
  update_handlers { m with current := setEnabledFlag m.current k enabled }

/-- Body of `get_enabled_threshold_count`: number of enabled flags among
the three threshold toggles. -/
def get_enabled_threshold_count (m : SMState) : ℕ :=
  (if m.current.hold_enabled then 1 else 0) +
    (if m.current.slow_tap_enabled then 1 else 0) +
    (if m.current.multiplier_enabled then 1 else 0)

/-- Body of `_save_to_krita`, with host availability abstracted to a
Boolean: `Krita.instance()` missing returns `False` and writes nothing,
otherwise every key is written and `True` returned.  The persisted copy
itself is outside the model. -/
def save_to_krita (hostAvailable : Bool) : Bool := hostAvailable

/-- Body of `save`: on a successful `_save_to_krita`, overwrite the saved
snapshot and drop the pre-reset snapshot, returning `true`; otherwise
return `false` leaving everything unchanged. -/
def save (m : SMState) (hostAvailable : Bool) : SMState × Bool :=
  if save_to_krita hostAvailable then
    ({ m with saved := m.current, before_reset := none }, true)
  else (m, false)

/-- Body of `cancel`: restore the pre-reset snapshot when one is pending
(clearing it), otherwise the last-saved snapshot; push either way. -/
def cancel (m : SMState) : SMState :=
  match m.before_reset with
  | some c => update_handlers { m with current := c, before_reset := none }
  | none => update_handlers { m with current := m.saved }

/-- Body of `reset_to_defaults`: snapshot the current values for undo, load
the hardcoded defaults, push. -/
def reset_to_defaults (m : SMState) : SMState :=
  update_handlers
    { m with before_reset := some m.current, current := DEFAULTS }

/-- Body of `ThresholdSettingRow._on_checkbox_changed` in `docker.py` (the
UI path guarding the enabled-threshold floor): unchecking while at most
one threshold is enabled reverts the checkbox and leaves the store
untouched; every other change reaches `set_threshold_enabled`. -/
def on_checkbox_changed (m : SMState) (k : ThresholdKey) (isChecked : Bool) :
    SMState :=
  if isChecked = false ∧ get_enabled_threshold_count m ≤ 1 then m
  else set_threshold_enabled m k isChecked

/-- A sequence of checkbox changes applied through the UI path. -/
def runCheckboxEvents (m : SMState) (es : List (ThresholdKey × Bool)) :
    SMState :=
  es.foldl (fun acc e => on_checkbox_changed acc e.1 e.2) m

/-- Sample handler configuration for the tap-burst scenario of the spec:
tap mode enabled, hold mode disabled, burst count 3, burst interval
0.015 s (the constructor defaults except for the hold toggle). -/
def tapOnlyHandler : Handler := { initHandler with HOLD_ENABLED := false }

/-- Sample handler mid-burst with 14 consecutive unchanged triggers
already recorded. -/
def burstHandler14 : Handler :=
  { initHandler with is_pressed := true, burst_active := true,
                     burst_remaining := 2, burst_timer_active := true,
                     unchanged_trigger_count := 14 }

/-- Sample pressed handler already promoted to `HOLD` mode. -/
def holdHandler : Handler :=
  { initHandler with is_pressed := true, current_mode := InputMode.HOLD }

/-- Sample handler with a release recorded at time 1. -/
def releasedAt1Handler : Handler := { initHandler with last_release_time := 1 }

/-- Sample manager state with non-default current values and no pending
reset snapshot. -/
def sampleSM : SMState :=
  { current := { DEFAULTS with hold_detect_time := 1/4, hold_enabled := false }
    saved := DEFAULTS
    before_reset := none
    handlers := [initHandler] }

namespace Lemmas

theorem cleanup_state_last_release (s : Handler) :
    (cleanup_state s).last_release_time = s.last_release_time := rfl

theorem end_press_is_pressed (s : Handler) (now : ℚ) :
    (end_press s now).is_pressed = false := by
  simp only [end_press]
  split
  · rfl
  · simp_all

theorem force_stop_is_pressed (s : Handler) :
    (force_stop s).is_pressed = false := rfl

theorem finish_burst_is_pressed (s : Handler) (now : ℚ) :
    (finish_burst s now).is_pressed = s.is_pressed := by
  simp only [finish_burst]
  split <;> rfl

theorem finish_burst_trigger_count (s : Handler) (now : ℚ) :
    (finish_burst s now).trigger_count = s.trigger_count := by
  simp only [finish_burst]
  split <;> rfl

theorem finish_burst_burst_remaining (s : Handler) (now : ℚ) :
    (finish_burst s now).burst_remaining = 0 := by
  simp only [finish_burst]
  split <;> rfl

theorem finish_burst_interval (s : Handler) (now : ℚ) :
    (finish_burst s now).current_burst_interval =
      s.current_burst_interval := by
  simp only [finish_burst]
  split <;> rfl

theorem finish_burst_unchanged_count (s : Handler) (now : ℚ) :
    (finish_burst s now).unchanged_trigger_count =
      s.unchanged_trigger_count := by
  simp only [finish_burst]
  split <;> rfl

theorem finish_burst_last_brush (s : Handler) (now : ℚ) :
    (finish_burst s now).last_brush_size = s.last_brush_size := by
  simp only [finish_burst]
  split <;> rfl

theorem start_burst_spec (s : Handler) (n : ℤ) (i now : ℚ) (hn : 1 ≤ n) :
    (start_burst s n i now).trigger_count = s.trigger_count + 1 ∧
    (start_burst s n i now).burst_remaining = n - 1 ∧
    (start_burst s n i now).current_burst_interval = i ∧
    (start_burst s n i now).is_pressed = s.is_pressed := by
  simp only [start_burst, trigger_action]
  split
  · exact ⟨rfl, rfl, rfl, rfl⟩
  · rename_i hle
    have hn1 : n = 1 := by omega
    subst hn1
    refine ⟨?_, ?_, ?_, ?_⟩
    · rw [finish_burst_trigger_count]
    · rw [finish_burst_burst_remaining]
      omega
    · rw [finish_burst_interval]
    · rw [finish_burst_is_pressed]

theorem start_burst_is_pressed (s : Handler) (n : ℤ) (i now : ℚ) :
    (start_burst s n i now).is_pressed = s.is_pressed := by
  simp only [start_burst, trigger_action]
  split
  · rfl
  · rw [finish_burst_is_pressed]

theorem start_burst_trigger_count (s : Handler) (n : ℤ) (i now : ℚ) :
    (start_burst s n i now).trigger_count = s.trigger_count + 1 := by
  simp only [start_burst, trigger_action]
  split
  · rfl
  · rw [finish_burst_trigger_count]

theorem start_burst_unchanged_count (s : Handler) (n : ℤ) (i now : ℚ) :
    (start_burst s n i now).unchanged_trigger_count =
      s.unchanged_trigger_count := by
  simp only [start_burst, trigger_action]
  split
  · rfl
  · rw [finish_burst_unchanged_count]

theorem handle_slow_tap_is_pressed (s : Handler) (u : Bool) (now : ℚ) :
    (handle_slow_tap s u now).is_pressed = s.is_pressed := by
  simp only [handle_slow_tap]
  split <;> rw [start_burst_is_pressed]

theorem handle_slow_tap_trigger_count (s : Handler) (u : Bool) (now : ℚ) :
    (handle_slow_tap s u now).trigger_count = s.trigger_count + 1 := by
  simp only [handle_slow_tap]
  split <;> rw [start_burst_trigger_count]

theorem start_press_body_is_pressed (s : Handler) (now : ℚ)
    (size : Option ℚ) : (start_press_body s now size).is_pressed = true := by
  simp only [start_press_body]
  split <;> split <;> simp [handle_slow_tap_is_pressed]

theorem start_press_body_trigger_count (s : Handler) (now : ℚ)
    (size : Option ℚ) : (start_press_body s now size).trigger_count = 1 := by
  simp only [start_press_body]
  split <;> split <;> simp [handle_slow_tap_trigger_count]

theorem end_press_of_pressed (s : Handler) (now : ℚ)
    (h : s.is_pressed = true) :
    end_press s now =
      { cleanup_state s with last_release_time := now,
                             is_pressed := false } := by
  simp only [end_press]
  rw [if_pos h]

theorem get_enabled_threshold_count_update_handlers (m : SMState) :
    get_enabled_threshold_count (update_handlers m) =
      get_enabled_threshold_count m := rfl

theorem apply_to_handler_comp (c₂ c₁ : Settings) (h : Handler) :
    apply_to_handler c₂ (apply_to_handler c₁ h) = apply_to_handler c₂ h :=
  rfl

theorem checkbox_floor_step (m : SMState) (k : ThresholdKey) (b : Bool)
    (h : 1 ≤ get_enabled_threshold_count m) :
    1 ≤ get_enabled_threshold_count (on_checkbox_changed m k b) := by
  simp only [on_checkbox_changed]
  split
  · exact h
  · rename_i hng
    cases b
    · have h2 : 2 ≤ get_enabled_threshold_count m := by
        by_contra hc
        exact hng ⟨rfl, by omega⟩
      simp only [get_enabled_threshold_count, set_threshold_enabled,
        update_handlers] at h2 ⊢
      cases k <;> simp only [setEnabledFlag] <;>
        split_ifs at h2 ⊢ <;> omega
    · simp only [get_enabled_threshold_count, set_threshold_enabled,
        update_handlers]
      cases k <;> simp only [setEnabledFlag] <;>
        split_ifs <;> omega

theorem checkbox_floor_run (es : List (ThresholdKey × Bool)) :
    ∀ m : SMState, 1 ≤ get_enabled_threshold_count m →
      1 ≤ get_enabled_threshold_count (runCheckboxEvents m es) := by
  induction es with
  | nil => exact fun m h => h
  | cons e es ih =>
    intro m h
    exact ih (on_checkbox_changed m e.1 e.2) (checkbox_floor_step m e.1 e.2 h)

end Lemmas

/-- C6: `force_stop` performs the cleanup of `end_press` (both timers
stopped, burst state cleared, handler marked not pressed) in any state
but never modifies `last_release_time`, while `end_press` on a pressed
handler is exactly `force_stop` followed by stamping
`last_release_time = now`. -/
theorem force_stop_frame_effect (s : Handler) (now : ℚ) :
    (force_stop s).last_release_time = s.last_release_time ∧
    (force_stop s).is_pressed = false ∧
    (force_stop s).timer_active = false ∧
    (force_stop s).burst_timer_active = false ∧
    (force_stop s).burst_active = false ∧
    (force_stop s).burst_remaining = 0 ∧
    (s.is_pressed = true →
      end_press s now = { force_stop s with last_release_time := now }) := by
  refine ⟨rfl, rfl, rfl, rfl, rfl, rfl, fun h => ?_⟩
  rw [Lemmas.end_press_of_pressed s now h]
  rfl

/-- C6 witness: the relation between `end_press` and `force_stop` at a
concrete pressed handler and time 2. -/
theorem force_stop_frame_effect_witness :
    (force_stop holdHandler).last_release_time =
        holdHandler.last_release_time ∧
      end_press holdHandler 2 =
        { force_stop holdHandler with last_release_time := 2 } := by
  have h := force_stop_frame_effect holdHandler 2
  exact ⟨h.1, h.2.2.2.2.2.2 (by decide)⟩

/-- C9: `is_stale_state` holds exactly when the handler is pressed and the
time since the last poll-timer activity exceeds the 0.5 s stale
timeout; for a stale handler `check_and_fix_stale_state` returns `true`
and force-stops it, for a non-stale handler it returns `false` and
changes nothing. -/
theorem stale_state_spec (s : Handler) (now : ℚ) :
    (is_stale_state s now = true ↔
      s.is_pressed = true ∧
        now - s.last_timer_activity > STALE_STATE_TIMEOUT) ∧
    (is_stale_state s now = true →
      check_and_fix_stale_state s now = (force_stop s, true) ∧
      (check_and_fix_stale_state s now).1.is_pressed = false ∧
      (check_and_fix_stale_state s now).1.timer_active = false ∧
      (check_and_fix_stale_state s now).1.burst_timer_active = false) ∧
    (is_stale_state s now = false →
      check_and_fix_stale_state s now = (s, false)) := by
  refine ⟨?_, fun h => ?_, fun h => ?_⟩
  · simp only [is_stale_state]
    rcases hs : s.is_pressed <;> simp [hs]
  · simp only [check_and_fix_stale_state]
    rw [if_pos h]
    exact ⟨rfl, rfl, rfl, rfl⟩
  · simp only [check_and_fix_stale_state]
    rw [if_neg (by simp [h])]

/-- C9 witness: a pressed handler with last activity at 0 queried at time
1 is stale and gets fixed; the fresh idle handler is not stale. -/
theorem stale_state_spec_witness :
    is_stale_state holdHandler 1 = true ∧
      check_and_fix_stale_state holdHandler 1 =
        (force_stop holdHandler, true) ∧
      check_and_fix_stale_state initHandler 1 = (initHandler, false) := by
  have hs : is_stale_state holdHandler 1 = true := by
    norm_num [is_stale_state, holdHandler, initHandler, STALE_STATE_TIMEOUT]
  refine ⟨hs, ((stale_state_spec holdHandler 1).2.1 hs).1,
    (stale_state_spec initHandler 1).2.2 (by decide)⟩

/-- C10: when host storage is unavailable, `save` returns failure and
leaves the current values, the saved snapshot and any pending
pre-reset snapshot untouched, so a later `cancel` behaves exactly as
if `save` had never been called. -/
theorem save_unavailable_atomic (m : SMState) :
    (save m false).2 = false ∧
    (save m false).1 = m ∧
    (save m false).1.current = m.current ∧
    (save m false).1.saved = m.saved ∧
    (save m false).1.before_reset = m.before_reset ∧
    cancel (save m false).1 = cancel m := by
  exact ⟨rfl, rfl, rfl, rfl, rfl, rfl⟩

/-- C8: `reset_to_defaults` followed immediately by `cancel` restores the
exact pre-reset current values, clears the reset-undo snapshot and
pushes the restored configuration to all registered handlers; `cancel`
without a pending reset restores the last-saved snapshot and also
pushes. -/
theorem reset_cancel_roundtrip (m : SMState) :
    (cancel (reset_to_defaults m)).current = m.current ∧
    (cancel (reset_to_defaults m)).saved = m.saved ∧
    (cancel (reset_to_defaults m)).before_reset = none ∧
    (cancel (reset_to_defaults m)).handlers =
      m.handlers.map (apply_to_handler m.current) ∧
    (m.before_reset = none →
      (cancel m).current = m.saved ∧
      (cancel m).handlers = m.handlers.map (apply_to_handler m.saved)) := by
  refine ⟨rfl, rfl, rfl, ?_, fun h => ?_⟩
  · show ((m.handlers.map (apply_to_handler DEFAULTS)).map
      (apply_to_handler m.current)) = m.handlers.map (apply_to_handler m.current)
    rw [List.map_map]
    rfl
  · simp only [cancel]
    rw [h]
    exact ⟨rfl, rfl⟩

/-- C8 witness: the reset-cancel roundtrip at a concrete manager state with
non-default current values. -/
theorem reset_cancel_roundtrip_witness :
    (cancel (reset_to_defaults sampleSM)).current = sampleSM.current ∧
      (cancel (reset_to_defaults sampleSM)).before_reset = none ∧
      (cancel sampleSM).current = sampleSM.saved := by
  have h := reset_cancel_roundtrip sampleSM
  exact ⟨h.1, h.2.2.1, (h.2.2.2.2 rfl).1⟩

/-- C3 counterexample: the store itself does not reject disabling the last
enabled threshold.  From the default state, disabling the hold and tap
thresholds leaves exactly one enabled flag, and the third
`set_threshold_enabled` call then takes full effect, bringing the
enabled-threshold count to zero. -/
theorem set_threshold_enabled_no_floor :
    get_enabled_threshold_count
      (set_threshold_enabled
        (set_threshold_enabled initSM ThresholdKey.hold_detect_time false)
        ThresholdKey.slow_tap_threshold false) = 1 ∧
    (set_threshold_enabled
      (set_threshold_enabled
        (set_threshold_enabled initSM ThresholdKey.hold_detect_time false)
        ThresholdKey.slow_tap_threshold false)
      ThresholdKey.multiplier_threshold false).current.multiplier_enabled
        = false ∧
    get_enabled_threshold_count
      (set_threshold_enabled
        (set_threshold_enabled
          (set_threshold_enabled initSM ThresholdKey.hold_detect_time false)
          ThresholdKey.slow_tap_threshold false)
        ThresholdKey.multiplier_threshold false) = 0 := by
  decide

/-- C3 amended: `set_threshold_enabled` on the store applies the requested
flag unconditionally; the enabled-threshold floor is enforced only on
the UI path (`_on_checkbox_changed` in the docker), under which every
sequence of checkbox changes keeps at least one threshold enabled. -/
theorem threshold_floor_ui_only (m : SMState) (k : ThresholdKey) (b : Bool)
    (es : List (ThresholdKey × Bool))
    (h : 1 ≤ get_enabled_threshold_count m) :
    enabledFlag (set_threshold_enabled m k b).current k = b ∧
    1 ≤ get_enabled_threshold_count (runCheckboxEvents m es) := by
  constructor
  · cases k <;> rfl
  · exact Lemmas.checkbox_floor_run es m h

/-- C3 amended witness: attempting to uncheck all three thresholds through
the UI path leaves one enabled. -/
theorem threshold_floor_ui_only_witness :
    enabledFlag
        (set_threshold_enabled initSM ThresholdKey.hold_detect_time
          false).current ThresholdKey.hold_detect_time = false ∧
      1 ≤ get_enabled_threshold_count
        (runCheckboxEvents initSM
          [(ThresholdKey.hold_detect_time, false),
            (ThresholdKey.slow_tap_threshold, false),
            (ThresholdKey.multiplier_threshold, false)]) := by
  exact threshold_floor_ui_only initSM ThresholdKey.hold_detect_time false
    [(ThresholdKey.hold_detect_time, false),
      (ThresholdKey.slow_tap_threshold, false),
      (ThresholdKey.multiplier_threshold, false)] (by decide)

namespace Lemmas

theorem finish_burst_burst_active (s : Handler) (now : ℚ) :
    (finish_burst s now).burst_active = false := by
  simp only [finish_burst]
  split <;> rfl

theorem on_burst_timer_step (s : Handler) (now : ℚ)
    (hp : s.is_pressed = true) (hr : 0 < s.burst_remaining) :
    (on_burst_timer s now).trigger_count = s.trigger_count + 1 ∧
    (on_burst_timer s now).burst_remaining = s.burst_remaining - 1 ∧
    (on_burst_timer s now).is_pressed = true := by
  simp only [on_burst_timer, trigger_action]
  split
  · split
    · exact ⟨rfl, rfl, hp⟩
    · refine ⟨?_, ?_, ?_⟩
      · rw [finish_burst_trigger_count]
      · rw [finish_burst_burst_remaining]
        omega
      · rw [finish_burst_is_pressed]
        exact hp
  · rename_i hc
    exact absurd ⟨hr, hp⟩ hc

theorem on_burst_timer_not_pressed (s : Handler) (now : ℚ)
    (hp : s.is_pressed = false) :
    (on_burst_timer s now).trigger_count = s.trigger_count ∧
    (on_burst_timer s now).burst_active = false ∧
    (on_burst_timer s now).unchanged_trigger_count =
      s.unchanged_trigger_count := by
  simp only [on_burst_timer, trigger_action]
  split
  · rename_i hc
    rw [hp] at hc
    simp at hc
  · exact ⟨finish_burst_trigger_count _ _, finish_burst_burst_active _ _,
      finish_burst_unchanged_count _ _⟩

theorem runBurst_spec (k : ℕ) :
    ∀ (s : Handler) (now : ℚ), s.is_pressed = true →
      s.burst_remaining = (k : ℤ) →
      (runBurst s now k).trigger_count = s.trigger_count + k := by
  induction k with
  | zero => intro s now _ _; rfl
  | succ k ih =>
    intro s now hp hr
    have hpos : 0 < s.burst_remaining := by omega
    obtain ⟨h1, h2, h3⟩ := on_burst_timer_step s now hp hpos
    have hr2 : (on_burst_timer s now).burst_remaining = (k : ℤ) := by omega
    have := ih (on_burst_timer s now) now h3 hr2
    show (runBurst (on_burst_timer s now) now k).trigger_count =
      s.trigger_count + (k + 1)
    omega

theorem start_press_pair_of_idle (self other : Handler) (now : ℚ)
    (size : Option ℚ) (hself : self.is_pressed = false) :
    (start_press_pair self other now size).1.is_pressed = true ∧
    (start_press_pair self other now size).2.is_pressed = false := by
  simp only [start_press_pair]
  rw [if_neg (by simp [hself])]
  refine ⟨start_press_body_is_pressed _ _ _, ?_⟩
  split
  · exact force_stop_is_pressed _
  · simp_all

theorem step_preserves_mutex (p : Pair) (e : PairEvent)
    (h : ¬(p.a.is_pressed = true ∧ p.b.is_pressed = true)) :
    ¬((p.step e).a.is_pressed = true ∧ (p.step e).b.is_pressed = true) := by
  cases e with
  | startA now size =>
    rcases hp : p.a.is_pressed with _ | _
    · obtain ⟨h1, h2⟩ := start_press_pair_of_idle p.a p.b now size hp
      show ¬((start_press_pair p.a p.b now size).1.is_pressed = true ∧
        (start_press_pair p.a p.b now size).2.is_pressed = true)
      rw [h2]
      simp
    · show ¬((start_press_pair p.a p.b now size).1.is_pressed = true ∧
        (start_press_pair p.a p.b now size).2.is_pressed = true)
      simp only [start_press_pair]
      rw [if_pos hp]
      exact h
  | startB now size =>
    rcases hp : p.b.is_pressed with _ | _
    · obtain ⟨h1, h2⟩ := start_press_pair_of_idle p.b p.a now size hp
      show ¬((start_press_pair p.b p.a now size).2.is_pressed = true ∧
        (start_press_pair p.b p.a now size).1.is_pressed = true)
      rw [h2]
      simp
    · show ¬((start_press_pair p.b p.a now size).2.is_pressed = true ∧
        (start_press_pair p.b p.a now size).1.is_pressed = true)
      simp only [start_press_pair]
      rw [if_pos hp]
      exact h
  | endA now =>
    show ¬((end_press p.a now).is_pressed = true ∧ p.b.is_pressed = true)
    rw [end_press_is_pressed]
    simp
  | endB now =>
    show ¬(p.a.is_pressed = true ∧ (end_press p.b now).is_pressed = true)
    rw [end_press_is_pressed]
    simp
  | forceA =>
    show ¬((force_stop p.a).is_pressed = true ∧ p.b.is_pressed = true)
    rw [force_stop_is_pressed]
    simp
  | forceB =>
    show ¬(p.a.is_pressed = true ∧ (force_stop p.b).is_pressed = true)
    rw [force_stop_is_pressed]
    simp

theorem run_preserves_mutex (es : List PairEvent) :
    ∀ p : Pair, ¬(p.a.is_pressed = true ∧ p.b.is_pressed = true) →
      ¬((p.run es).a.is_pressed = true ∧ (p.run es).b.is_pressed = true) := by
  induction es with
  | nil => exact fun p h => h
  | cons e es ih =>
    intro p h
    exact ih (p.step e) (step_preserves_mutex p e h)

end Lemmas

/-- C1: starting a press on one handler of a pair while the other is
pressed force-stops the other (not pressed, both timers stopped)
before the caller is marked pressed, and under every sequence of
`start_press`, `end_press` and `force_stop` events the two paired
handlers are never simultaneously pressed. -/
theorem paired_mutual_exclusion (p q : Pair) (now : ℚ) (size : Option ℚ)
    (es : List PairEvent)
    (ha : p.a.is_pressed = false) (hb : p.b.is_pressed = true)
    (hq : ¬(q.a.is_pressed = true ∧ q.b.is_pressed = true)) :
    (p.step (PairEvent.startA now size)).b = force_stop p.b ∧
    (p.step (PairEvent.startA now size)).b.is_pressed = false ∧
    (p.step (PairEvent.startA now size)).b.timer_active = false ∧
    (p.step (PairEvent.startA now size)).b.burst_timer_active = false ∧
    (p.step (PairEvent.startA now size)).a.is_pressed = true ∧
    ¬((q.run es).a.is_pressed = true ∧ (q.run es).b.is_pressed = true) := by
  have hB : (p.step (PairEvent.startA now size)).b = force_stop p.b := by
    show (start_press_pair p.a p.b now size).2 = force_stop p.b
    simp only [start_press_pair]
    rw [if_neg (by simp [ha]), if_pos hb]
  have hA : (p.step (PairEvent.startA now size)).a.is_pressed = true := by
    show (start_press_pair p.a p.b now size).1.is_pressed = true
    exact (Lemmas.start_press_pair_of_idle p.a p.b now size ha).1
  refine ⟨hB, ?_, ?_, ?_, hA, Lemmas.run_preserves_mutex es q hq⟩
  · rw [hB]; rfl
  · rw [hB]; rfl
  · rw [hB]; rfl

/-- C1 witness: the mutual-exclusion theorem at a concrete pair whose
second handler is pressed, with a concrete three-event sequence. -/
theorem paired_mutual_exclusion_witness :
    (Pair.step { a := initHandler, b := holdHandler }
        (PairEvent.startA 0 none)).b.is_pressed = false ∧
      (Pair.step { a := initHandler, b := holdHandler }
        (PairEvent.startA 0 none)).a.is_pressed = true ∧
      ¬((Pair.run { a := initHandler, b := holdHandler }
          [PairEvent.startA 0 none, PairEvent.endA 1,
            PairEvent.startB 2 none]).a.is_pressed = true ∧
        (Pair.run { a := initHandler, b := holdHandler }
          [PairEvent.startA 0 none, PairEvent.endA 1,
            PairEvent.startB 2 none]).b.is_pressed = true) := by
  have h := paired_mutual_exclusion { a := initHandler, b := holdHandler }
    { a := initHandler, b := holdHandler } 0 none
    [PairEvent.startA 0 none, PairEvent.endA 1, PairEvent.startB 2 none]
    (by decide) (by decide) (by decide)
  exact ⟨h.2.1, h.2.2.2.2.1, h.2.2.2.2.2⟩

/-- C2 counterexample: with tap mode enabled, hold mode disabled, burst
count 3 and burst interval 0.015 s, a `start_press` at time 0 followed
by `end_press` at time 0.01 (before the burst completes) leaves the
total trigger count at 1, not 3: `end_press` stops the burst timer,
and even if further burst-timer callbacks ran they would fire no
trigger. -/
theorem release_cancels_burst_counterexample :
    (end_press (start_press_body tapOnlyHandler 0 none)
      (1/100)).trigger_count = 1 ∧
    (end_press (start_press_body tapOnlyHandler 0 none)
      (1/100)).burst_timer_active = false ∧
    (runBurst (end_press (start_press_body tapOnlyHandler 0 none) (1/100))
      (3/200) 5).trigger_count = 1 ∧
    ¬((end_press (start_press_body tapOnlyHandler 0 none)
      (1/100)).trigger_count = 3) := by
  norm_num [start_press_body, end_press, cleanup_state, handle_slow_tap,
    start_burst, trigger_action, finish_burst, tapOnlyHandler, initHandler,
    runBurst, on_burst_timer]

/-- C2 amended: a `start_press` followed by `end_press` before the burst
completes fires exactly one trigger in total (the synchronous first
burst step); `end_press` stops the burst timer and clears the burst
state, and a burst-timer callback on a handler that is no longer
pressed fires no trigger and merely finishes the burst. -/
theorem burst_cancelled_on_release (s : Handler) (t0 t1 t2 : ℚ)
    (size : Option ℚ) (hnp : s.is_pressed = false) :
    (end_press (start_press_body s t0 size) t1).trigger_count = 1 ∧
    (end_press (start_press_body s t0 size) t1).burst_timer_active = false ∧
    (end_press (start_press_body s t0 size) t1).burst_active = false ∧
    (end_press (start_press_body s t0 size) t1).burst_remaining = 0 ∧
    (end_press (start_press_body s t0 size) t1).is_pressed = false ∧
    (on_burst_timer s t2).trigger_count = s.trigger_count ∧
    (on_burst_timer s t2).burst_active = false := by
  obtain ⟨hb1, hb2, _⟩ := Lemmas.on_burst_timer_not_pressed s t2 hnp
  rw [Lemmas.end_press_of_pressed _ t1
    (Lemmas.start_press_body_is_pressed s t0 size)]
  refine ⟨?_, rfl, rfl, rfl, rfl, hb1, hb2⟩
  show (start_press_body s t0 size).trigger_count = 1
  exact Lemmas.start_press_body_trigger_count s t0 size

/-- C2 amended witness: the amended statement at the concrete
tap-only handler, press at 0 and release at 0.01. -/
theorem burst_cancelled_on_release_witness :
    (end_press (start_press_body tapOnlyHandler 0 none)
      (1/100)).trigger_count = 1 ∧
    (end_press (start_press_body tapOnlyHandler 0 none)
      (1/100)).is_pressed = false ∧
    (on_burst_timer tapOnlyHandler 2).trigger_count =
      tapOnlyHandler.trigger_count := by
  have h := burst_cancelled_on_release tapOnlyHandler 0 (1/100) 2 none (by decide)
  exact ⟨h.1, h.2.2.2.2.1, h.2.2.2.2.2.1⟩

namespace Lemmas

theorem start_burst_interval (s : Handler) (n : ℤ) (i now : ℚ) :
    (start_burst s n i now).current_burst_interval = i := by
  simp only [start_burst, trigger_action]
  split
  · rfl
  · rw [finish_burst_interval]

theorem one_le_mul_int (a b : ℤ) (ha : 1 ≤ a) (hb : 1 ≤ b) : 1 ≤ a * b := by
  nlinarith

end Lemmas

/-- C7: a `start_press` from idle with tap mode enabled, a prior release
recorded and the time since release below the tap threshold starts a
burst whose total count is `SLOW_BURST_COUNT * MULTIPLIER_BURST_COUNT`
at `MULTIPLIER_BURST_INTERVAL` spacing when multiplier mode is enabled
and the release is also within the multiplier threshold, and otherwise
a burst of `SLOW_BURST_COUNT` at `SLOW_BURST_INTERVAL` spacing; in each
case running the remaining burst steps to completion fires exactly that
total number of triggers. -/
theorem tap_burst_parameters (s : Handler) (now : ℚ) (size : Option ℚ)
    (hidle : s.is_pressed = false)
    (hrel : s.last_release_time > 0)
    (htap : s.SLOW_TAP_ENABLED = true)
    (htime : now - s.last_release_time < s.SLOW_TAP_THRESHOLD)
    (hc1 : 1 ≤ s.SLOW_BURST_COUNT)
    (hc2 : 1 ≤ s.MULTIPLIER_BURST_COUNT) :
    (s.MULTIPLIER_ENABLED = true ∧
        now - s.last_release_time < s.MULTIPLIER_THRESHOLD →
      (start_press_body s now size).current_burst_interval =
        s.MULTIPLIER_BURST_INTERVAL ∧
      ((start_press_body s now size).trigger_count : ℤ) +
          (start_press_body s now size).burst_remaining =
        s.SLOW_BURST_COUNT * s.MULTIPLIER_BURST_COUNT ∧
      ((runBurst (start_press_body s now size) now
            (start_press_body s now size).burst_remaining.toNat).trigger_count
          : ℤ) =
        s.SLOW_BURST_COUNT * s.MULTIPLIER_BURST_COUNT) ∧
    (¬(s.MULTIPLIER_ENABLED = true ∧
        now - s.last_release_time < s.MULTIPLIER_THRESHOLD) →
      (start_press_body s now size).current_burst_interval =
        s.SLOW_BURST_INTERVAL ∧
      ((start_press_body s now size).trigger_count : ℤ) +
          (start_press_body s now size).burst_remaining =
        s.SLOW_BURST_COUNT ∧
      ((runBurst (start_press_body s now size) now
            (start_press_body s now size).burst_remaining.toNat).trigger_count
          : ℤ) =
        s.SLOW_BURST_COUNT) := by
  have hcount : (start_press_body s now size).trigger_count = 1 :=
    Lemmas.start_press_body_trigger_count s now size
  have hpressed : (start_press_body s now size).is_pressed = true :=
    Lemmas.start_press_body_is_pressed s now size
  constructor
  · rintro ⟨hm, hmt⟩
    have hn : (1 : ℤ) ≤ s.SLOW_BURST_COUNT * s.MULTIPLIER_BURST_COUNT :=
      Lemmas.one_le_mul_int _ _ hc1 hc2
    have hint : (start_press_body s now size).current_burst_interval =
        s.MULTIPLIER_BURST_INTERVAL := by
      simp [start_press_body, handle_slow_tap, htap, htime, hm, hmt, hrel,
        apply_ite (f := Handler.current_burst_interval),
        Lemmas.start_burst_interval]
    have hrem : (start_press_body s now size).burst_remaining =
        s.SLOW_BURST_COUNT * s.MULTIPLIER_BURST_COUNT - 1 := by
      simp only [start_press_body, handle_slow_tap]
      simp [htap, htime, hm, hmt, hrel,
        apply_ite (f := Handler.burst_remaining)]
      exact (Lemmas.start_burst_spec _ _ _ now hn).2.1
    refine ⟨hint, ?_, ?_⟩
    · rw [hcount, hrem]
      omega
    · rw [Lemmas.runBurst_spec _ _ now hpressed (by rw [hrem]; omega)]
      rw [hcount, hrem]
      omega
  · intro hnm
    have hint2 : (start_press_body s now size).current_burst_interval =
          s.SLOW_BURST_INTERVAL ∧
        (start_press_body s now size).burst_remaining =
          s.SLOW_BURST_COUNT - 1 := by
      rcases hme : s.MULTIPLIER_ENABLED with _ | _
      · constructor
        · simp [start_press_body, handle_slow_tap, htap, htime, hme,
            apply_ite (f := Handler.current_burst_interval),
            Lemmas.start_burst_interval]
        · simp only [start_press_body, handle_slow_tap]
          simp [htap, htime, hme, apply_ite (f := Handler.burst_remaining)]
          exact (Lemmas.start_burst_spec _ _ _ now hc1).2.1
      · have hnmt : ¬(now - s.last_release_time < s.MULTIPLIER_THRESHOLD) :=
          fun hc => hnm ⟨hme, hc⟩
        constructor
        · simp [start_press_body, handle_slow_tap, htap, htime, hme, hnmt,
            apply_ite (f := Handler.current_burst_interval),
            Lemmas.start_burst_interval]
        · simp only [start_press_body, handle_slow_tap]
          simp [htap, htime, hme, hnmt,
            apply_ite (f := Handler.burst_remaining)]
          exact (Lemmas.start_burst_spec _ _ _ now hc1).2.1
    refine ⟨hint2.1, ?_, ?_⟩
    · rw [hcount, hint2.2]
      omega
    · rw [Lemmas.runBurst_spec _ _ now hpressed (by rw [hint2.2]; omega)]
      rw [hcount, hint2.2]
      omega

/-- C7 witness: the spec scenario with time since release 0.05 s, tap
threshold 0.3 s, multiplier threshold 0.15 s, burst count 3, multiplier
count 2: the multiplied burst totals 6 triggers at the multiplier
interval, and disabling the multiplier yields a burst of 3. -/
theorem tap_burst_parameters_witness :
    (start_press_body releasedAt1Handler (21/20) none).current_burst_interval
        = releasedAt1Handler.MULTIPLIER_BURST_INTERVAL ∧
      ((runBurst (start_press_body releasedAt1Handler (21/20) none) (21/20)
          (start_press_body releasedAt1Handler
            (21/20) none).burst_remaining.toNat).trigger_count : ℤ) =
        releasedAt1Handler.SLOW_BURST_COUNT *
          releasedAt1Handler.MULTIPLIER_BURST_COUNT := by
  have h := tap_burst_parameters releasedAt1Handler (21/20) none
    (by decide)
    (by norm_num [releasedAt1Handler, initHandler])
    (by decide)
    (by norm_num [releasedAt1Handler, initHandler])
    (by decide) (by decide)
  have hcond : releasedAt1Handler.MULTIPLIER_ENABLED = true ∧
      (21/20 : ℚ) - releasedAt1Handler.last_release_time <
        releasedAt1Handler.MULTIPLIER_THRESHOLD := by
    exact ⟨by decide, by norm_num [releasedAt1Handler, initHandler]⟩
  exact ⟨(h.1 hcond).1, (h.1 hcond).2.2⟩

namespace Lemmas

theorem safety_check_some_some (s : Handler) (bq aq : ℚ) :
    trigger_action_with_safety_check s (some bq) (some aq) =
      (if |bq - aq| < 1/1000 then
        (if s.unchanged_trigger_count + 1 ≥ MAX_UNCHANGED_TRIGGERS then
          force_stop { trigger_action s with
            unchanged_trigger_count := s.unchanged_trigger_count + 1 }
        else { trigger_action s with
          unchanged_trigger_count := s.unchanged_trigger_count + 1 })
      else
        { trigger_action s with
            unchanged_trigger_count := 0, last_brush_size := some aq }) := rfl

theorem safety_check_trigger_count (s : Handler) (b a : Option ℚ) :
    (trigger_action_with_safety_check s b a).trigger_count =
      s.trigger_count + 1 := by
  rcases b with _ | bq
  · rfl
  · rcases a with _ | aq
    · rfl
    · rw [safety_check_some_some]
      split
      · split <;> rfl
      · rfl

theorem on_burst_timer_safety_frame (s : Handler) (now : ℚ) :
    (on_burst_timer s now).unchanged_trigger_count =
      s.unchanged_trigger_count ∧
    (on_burst_timer s now).last_brush_size = s.last_brush_size := by
  simp only [on_burst_timer, trigger_action]
  split
  · split
    · exact ⟨rfl, rfl⟩
    · exact ⟨finish_burst_unchanged_count _ _, finish_burst_last_brush _ _⟩
  · exact ⟨finish_burst_unchanged_count _ _, finish_burst_last_brush _ _⟩

theorem start_burst_last_brush (s : Handler) (n : ℤ) (i now : ℚ) :
    (start_burst s n i now).last_brush_size = s.last_brush_size := by
  simp only [start_burst, trigger_action]
  split
  · rfl
  · rw [finish_burst_last_brush]

theorem get_current_interval_activity (s : Handler) (now : ℚ) (e : ℝ) :
    get_current_interval { s with last_timer_activity := now } e =
      get_current_interval s e := rfl

theorem on_timer_fires (s : Handler) (now : ℚ) (b a : Option ℚ)
    (hp : s.is_pressed = true) (hm : s.current_mode = InputMode.HOLD)
    (hd : ¬(now - s.press_start_time > MAX_PRESS_DURATION))
    (hge : ((now - s.last_trigger_time : ℚ) : ℝ) ≥
      get_current_interval s ((now - s.press_start_time : ℚ) : ℝ)) :
    on_timer s now b a =
      { trigger_action_with_safety_check
          { s with last_timer_activity := now } b a with
        last_trigger_time := now } := by
  simp only [on_timer]
  rw [if_neg (show ¬¬(s.is_pressed = true) from fun hc => hc hp)]
  rw [if_neg hd]
  rw [if_neg (show ¬(s.HOLD_ENABLED = true ∧
      now - s.press_start_time ≥ s.HOLD_DETECT_TIME ∧
      s.current_mode ≠ InputMode.HOLD ∧ ¬(s.burst_active = true)) from
    fun hc => hc.2.2.1 hm)]
  rw [if_neg (show ¬(({ s with last_timer_activity := now }
      : Handler).current_mode ≠ InputMode.HOLD) from fun hc => hc hm)]
  rw [if_pos (show ((now - ({ s with last_timer_activity := now }
        : Handler).last_trigger_time : ℚ) : ℝ) ≥
      get_current_interval { s with last_timer_activity := now }
        ((now - ({ s with last_timer_activity := now }
          : Handler).press_start_time : ℚ) : ℝ) from hge)]

theorem on_timer_no_fire (s : Handler) (now : ℚ) (b a : Option ℚ)
    (hp : s.is_pressed = true) (hm : s.current_mode = InputMode.HOLD)
    (hd : ¬(now - s.press_start_time > MAX_PRESS_DURATION))
    (hlt : ¬(((now - s.last_trigger_time : ℚ) : ℝ) ≥
      get_current_interval s ((now - s.press_start_time : ℚ) : ℝ))) :
    on_timer s now b a = { s with last_timer_activity := now } := by
  simp only [on_timer]
  rw [if_neg (show ¬¬(s.is_pressed = true) from fun hc => hc hp)]
  rw [if_neg hd]
  rw [if_neg (show ¬(s.HOLD_ENABLED = true ∧
      now - s.press_start_time ≥ s.HOLD_DETECT_TIME ∧
      s.current_mode ≠ InputMode.HOLD ∧ ¬(s.burst_active = true)) from
    fun hc => hc.2.2.1 hm)]
  rw [if_neg (show ¬(({ s with last_timer_activity := now }
      : Handler).current_mode ≠ InputMode.HOLD) from fun hc => hc hm)]
  rw [if_neg (show ¬(((now - ({ s with last_timer_activity := now }
        : Handler).last_trigger_time : ℚ) : ℝ) ≥
      get_current_interval { s with last_timer_activity := now }
        ((now - ({ s with last_timer_activity := now }
          : Handler).press_start_time : ℚ) : ℝ)) from hlt)]

end Lemmas

/-- C4 counterexample: a burst-step trigger does not perform the safety
check.  A pressed mid-burst handler that has already recorded 14
consecutive unchanged triggers fires a further trigger from the burst
timer without consulting the brush size: its unchanged-trigger counter
stays at 14 (neither incremented to the force-stop threshold of 15 nor
reset) and the handler stays pressed, contradicting the claim that
every trigger event reads the quantity before and after and
force-stops after 15 consecutive unchanged triggers. -/
theorem burst_skips_safety_check :
    (on_burst_timer burstHandler14 0).trigger_count =
      burstHandler14.trigger_count + 1 ∧
    (on_burst_timer burstHandler14 0).unchanged_trigger_count = 14 ∧
    (on_burst_timer burstHandler14 0).is_pressed = true := by
  decide

/-- C4 amended: only triggers fired from hold-mode poll-timer ticks go
through `_trigger_action_with_safety_check`; burst-step triggers call
the plain trigger and leave the unchanged-trigger counter and the last
observed size untouched.  The safety check itself reads the quantity
before and after the trigger: a change of less than 0.001 increments
the consecutive-unchanged counter and reaching 15 force-stops the
handler, while a larger change resets the counter to zero and records
the new size. -/
theorem safety_check_semantics (s : Handler) (bq aq : ℚ) (now : ℚ)
    (n : ℤ) (i : ℚ) (b a : Option ℚ) :
    (|bq - aq| < 1/1000 →
      (s.unchanged_trigger_count + 1 ≥ MAX_UNCHANGED_TRIGGERS →
        trigger_action_with_safety_check s (some bq) (some aq) =
          force_stop { trigger_action s with
            unchanged_trigger_count := s.unchanged_trigger_count + 1 } ∧
        (trigger_action_with_safety_check s (some bq)
          (some aq)).is_pressed = false) ∧
      (s.unchanged_trigger_count + 1 < MAX_UNCHANGED_TRIGGERS →
        trigger_action_with_safety_check s (some bq) (some aq) =
          { trigger_action s with
            unchanged_trigger_count := s.unchanged_trigger_count + 1 })) ∧
    (¬(|bq - aq| < 1/1000) →
      trigger_action_with_safety_check s (some bq) (some aq) =
        { trigger_action s with unchanged_trigger_count := 0,
                                last_brush_size := some aq }) ∧
    (on_burst_timer s now).unchanged_trigger_count =
      s.unchanged_trigger_count ∧
    (on_burst_timer s now).last_brush_size = s.last_brush_size ∧
    (start_burst s n i now).unchanged_trigger_count =
      s.unchanged_trigger_count ∧
    (start_burst s n i now).last_brush_size = s.last_brush_size ∧
    (s.is_pressed = true → s.current_mode = InputMode.HOLD →
      ¬(now - s.press_start_time > MAX_PRESS_DURATION) →
      ((now - s.last_trigger_time : ℚ) : ℝ) ≥
        get_current_interval s ((now - s.press_start_time : ℚ) : ℝ) →
      on_timer s now b a =
        { trigger_action_with_safety_check
            { s with last_timer_activity := now } b a with
          last_trigger_time := now }) := by
  obtain ⟨hf1, hf2⟩ := Lemmas.on_burst_timer_safety_frame s now
  refine ⟨fun hcl => ⟨fun hth => ?_, fun hth => ?_⟩, fun hcl => ?_,
    hf1, hf2, Lemmas.start_burst_unchanged_count s n i now,
    Lemmas.start_burst_last_brush s n i now,
    fun hp hm hd hge => Lemmas.on_timer_fires s now b a hp hm hd hge⟩
  · constructor
    · rw [Lemmas.safety_check_some_some, if_pos hcl, if_pos hth]
    · rw [Lemmas.safety_check_some_some, if_pos hcl, if_pos hth]
      rfl
  · rw [Lemmas.safety_check_some_some, if_pos hcl, if_neg (by omega)]
  · rw [Lemmas.safety_check_some_some, if_neg hcl]

/-- C4 amended witness: the safety check at a handler with 14 prior
unchanged triggers and pinned sizes force-stops, while a burst step of
the same handler leaves the counter at 14. -/
theorem safety_check_semantics_witness :
    (trigger_action_with_safety_check burstHandler14 (some 1)
      (some 1)).is_pressed = false ∧
    (on_burst_timer burstHandler14 0).unchanged_trigger_count =
      burstHandler14.unchanged_trigger_count := by
  have h := safety_check_semantics burstHandler14 1 1 0 3 (3/200) none none
  refine ⟨((h.1 (by norm_num) ).1 (by decide)).2, h.2.2.1⟩

/-- C5: in `Hold` mode a poll-timer tick computes the target interval
`max(HOLD_MIN_INTERVAL, HOLD_BASE_INTERVAL * exp(-HOLD_EXP_K * max(0, t
- HOLD_DETECT_TIME) / HOLD_TAU))` from the elapsed time `t` since
press start, and fires a trigger (stamping the last-trigger time to
now) exactly when the elapsed time since the last trigger is at least
that interval. -/
theorem hold_mode_tick (s : Handler) (now : ℚ) (b a : Option ℚ)
    (hp : s.is_pressed = true) (hm : s.current_mode = InputMode.HOLD)
    (hd : ¬(now - s.press_start_time > MAX_PRESS_DURATION)) :
    get_current_interval s ((now - s.press_start_time : ℚ) : ℝ) =
      max (s.HOLD_MIN_INTERVAL : ℝ)
        ((s.HOLD_BASE_INTERVAL : ℝ) *
          Real.exp (-(s.HOLD_EXP_K : ℝ) *
            max 0 (((now - s.press_start_time : ℚ) : ℝ) -
              (s.HOLD_DETECT_TIME : ℝ)) / (s.HOLD_TAU : ℝ))) ∧
    (((now - s.last_trigger_time : ℚ) : ℝ) ≥
        get_current_interval s ((now - s.press_start_time : ℚ) : ℝ) →
      on_timer s now b a =
        { trigger_action_with_safety_check
            { s with last_timer_activity := now } b a with
          last_trigger_time := now } ∧
      (on_timer s now b a).last_trigger_time = now ∧
      (on_timer s now b a).trigger_count = s.trigger_count + 1) ∧
    (¬(((now - s.last_trigger_time : ℚ) : ℝ) ≥
        get_current_interval s ((now - s.press_start_time : ℚ) : ℝ)) →
      on_timer s now b a = { s with last_timer_activity := now } ∧
      (on_timer s now b a).trigger_count = s.trigger_count) ∧
    ((on_timer s now b a).trigger_count = s.trigger_count + 1 ↔
      ((now - s.last_trigger_time : ℚ) : ℝ) ≥
        get_current_interval s ((now - s.press_start_time : ℚ) : ℝ)) := by
  have hivl : get_current_interval s ((now - s.press_start_time : ℚ) : ℝ) =
      max (s.HOLD_MIN_INTERVAL : ℝ)
        ((s.HOLD_BASE_INTERVAL : ℝ) *
          Real.exp (-(s.HOLD_EXP_K : ℝ) *
            max 0 (((now - s.press_start_time : ℚ) : ℝ) -
              (s.HOLD_DETECT_TIME : ℝ)) / (s.HOLD_TAU : ℝ))) := by
    simp only [get_current_interval]
    rw [if_pos hm]
  have hfire : ∀ hge : ((now - s.last_trigger_time : ℚ) : ℝ) ≥
      get_current_interval s ((now - s.press_start_time : ℚ) : ℝ),
      on_timer s now b a =
        { trigger_action_with_safety_check
            { s with last_timer_activity := now } b a with
          last_trigger_time := now } :=
    fun hge => Lemmas.on_timer_fires s now b a hp hm hd hge
  have hstill : ∀ hlt : ¬(((now - s.last_trigger_time : ℚ) : ℝ) ≥
      get_current_interval s ((now - s.press_start_time : ℚ) : ℝ)),
      on_timer s now b a = { s with last_timer_activity := now } :=
    fun hlt => Lemmas.on_timer_no_fire s now b a hp hm hd hlt
  refine ⟨hivl, fun hge => ⟨hfire hge, ?_, ?_⟩,
    fun hlt => ⟨hstill hlt, ?_⟩, ?_⟩
  · rw [hfire hge]
  · rw [hfire hge]
    show (trigger_action_with_safety_check
      { s with last_timer_activity := now } b a).trigger_count =
        s.trigger_count + 1
    rw [Lemmas.safety_check_trigger_count]
  · rw [hstill hlt]
  · constructor
    · intro hc
      by_contra hlt
      rw [hstill hlt] at hc
      simp at hc
    · intro hge
      rw [hfire hge]
      show (trigger_action_with_safety_check
        { s with last_timer_activity := now } b a).trigger_count =
          s.trigger_count + 1
      rw [Lemmas.safety_check_trigger_count]

/-- C5 witness: the interval formula and the fired-tick equation at a
concrete pressed handler in `Hold` mode, ticked at time 5 (well past
any interval, since the interval never exceeds the 0.1 s base). -/
theorem hold_mode_tick_witness :
    get_current_interval holdHandler ((5 - holdHandler.press_start_time : ℚ)
        : ℝ) =
      max (holdHandler.HOLD_MIN_INTERVAL : ℝ)
        ((holdHandler.HOLD_BASE_INTERVAL : ℝ) *
          Real.exp (-(holdHandler.HOLD_EXP_K : ℝ) *
            max 0 (((5 - holdHandler.press_start_time : ℚ) : ℝ) -
              (holdHandler.HOLD_DETECT_TIME : ℝ)) /
            (holdHandler.HOLD_TAU : ℝ))) ∧
    (on_timer holdHandler 5 none none).trigger_count =
      holdHandler.trigger_count + 1 := by
  have h := hold_mode_tick holdHandler 5 none none rfl rfl
    (by norm_num [holdHandler, initHandler, MAX_PRESS_DURATION])
  have hge : ((5 - holdHandler.last_trigger_time : ℚ) : ℝ) ≥
      get_current_interval holdHandler
        ((5 - holdHandler.press_start_time : ℚ) : ℝ) := by
    rw [h.1]
    have hexp : Real.exp (-(holdHandler.HOLD_EXP_K : ℝ) *
        max 0 (((5 - holdHandler.press_start_time : ℚ) : ℝ) -
          (holdHandler.HOLD_DETECT_TIME : ℝ)) /
        (holdHandler.HOLD_TAU : ℝ)) ≤ 1 := by
      rw [Real.exp_le_one_iff]
      apply div_nonpos_of_nonpos_of_nonneg
      · apply mul_nonpos_of_nonpos_of_nonneg
        · norm_num [holdHandler, initHandler]
        · positivity
      · norm_num [holdHandler, initHandler]
    have hb : (holdHandler.HOLD_BASE_INTERVAL : ℝ) *
        Real.exp (-(holdHandler.HOLD_EXP_K : ℝ) *
          max 0 (((5 - holdHandler.press_start_time : ℚ) : ℝ) -
            (holdHandler.HOLD_DETECT_TIME : ℝ)) /
          (holdHandler.HOLD_TAU : ℝ)) ≤ (1/10 : ℝ) := by
      have hbv : (holdHandler.HOLD_BASE_INTERVAL : ℝ) = 1/10 := by
        norm_num [holdHandler, initHandler]
      rw [hbv]
      nlinarith [Real.exp_pos (-(holdHandler.HOLD_EXP_K : ℝ) *
        max 0 (((5 - holdHandler.press_start_time : ℚ) : ℝ) -
          (holdHandler.HOLD_DETECT_TIME : ℝ)) / (holdHandler.HOLD_TAU : ℝ))]
    have hmin : (holdHandler.HOLD_MIN_INTERVAL : ℝ) ≤ 1/10 := by
      norm_num [holdHandler, initHandler]
    have hlhs : ((5 - holdHandler.last_trigger_time : ℚ) : ℝ) = 5 := by
      norm_num [holdHandler, initHandler]
    rw [hlhs]
    have := max_le hmin hb
    linarith [this]
  exact ⟨h.1, ((h.2.1 hge).2.2)⟩

end QBS
